import Mathlib

/-!
Verification of the MarketMate core subsystems: the price heuristic
(pwa/src/utils/promptBuilders.ts, suggestPrice) and the listing store
(pwa/src/lib/indexeddb.ts).  Finite JavaScript numbers are modelled as
rationals: every finite numeric value reachable in these functions (the
two lookup tables, their products, and Math.round results) is exactly
representable in float64, and the rounding of every reachable finite
product agrees between float64 and exact rational arithmetic, so the
rational model is faithful there.  NaN is modelled explicitly: the
heuristic tables are plain object literals, so a bracket read walks the
prototype chain, and a key naming an inherited Object.prototype member
(toString, constructor, ...) yields that truthy non-numeric member; the
arithmetic then produces NaN, which Math.round propagates.
-/

namespace MarketMate

/-- Math.round for the values arising here (all non-negative): round half
up, that is the floor of x + 1/2. -/
def jsRound (x : ℚ) : ℤ := ⌊x + 1/2⌋

/-- JavaScript truthiness of an optional finite number: undefined and
null are falsy, a finite number is falsy exactly when it is zero. -/
def jsTruthy : Option ℚ → Bool
  | none => false
  | some q => decide (q ≠ 0)

/-- A JavaScript number as suggestPrice can produce one: a finite value
(rational model) or NaN. -/
inductive JSNumber where
  | num (q : ℚ)
  | nan
deriving DecidableEq

/-- What a bracket read on one of the heuristic table object literals
can produce: an own numeric entry, an inherited Object.prototype member
(a function or the `__proto__` object — truthy and non-numeric), or
undefined. -/
inductive TableRead where
  | num (q : ℚ)
  | protoMember
  | undefined
deriving DecidableEq

/-- The property names a plain object literal inherits from
Object.prototype; a bracket read of any of these on the tables returns
the inherited member instead of undefined. -/
def objectPrototypeKeys : List String :=
  ["constructor", "hasOwnProperty", "isPrototypeOf",
   "propertyIsEnumerable", "toLocaleString", "toString", "valueOf",
   "__defineGetter__", "__defineSetter__", "__lookupGetter__",
   "__lookupSetter__", "__proto__"]

/-- The `read || d` fallback on a table read: undefined and a zero entry
are falsy and replaced by the default; a nonzero entry and an inherited
Object.prototype member are truthy and kept. -/
def readOrDefault (v : TableRead) (d : ℚ) : TableRead :=
  match v with
  | .num q => if q = 0 then .num d else .num q
  | .protoMember => .protoMember
  | .undefined => .num d

/-- JavaScript multiplication of the two looked-up operands: finite
numbers multiply exactly (float64 and rational rounding agree on every
reachable product); an inherited function or object coerces to NaN, so
any non-numeric operand makes the product NaN. -/
def jsMul : TableRead → TableRead → JSNumber
  | .num p, .num q => .num (p * q)
  | _, _ => .nan

/-- Math.round on the reachable values: a finite non-negative value
rounds half up (floor of x + 1/2, matching float64 on every reachable
product); NaN propagates. -/
def jsRoundNum : JSNumber → JSNumber
  | .num q => .num ((jsRound q : ℤ) : ℚ)
  | .nan => .nan

/-- The ProductFacts interface from pwa/src/lib/chromeBuiltInAi.ts.
Optional fields become Option; estimatedPrice is an optional number. -/
structure ProductFacts where
  category : String
  brand : Option String := none
  color : Option String := none
  condition : String
  uniqueFeatures : List String
  keywords : List String
  estimatedPrice : Option ℚ := none
  notes : Option String := none
deriving DecidableEq

/-- The bracket read basePrices[category] in suggestPrice: an own entry
for the seven table keys, the inherited member for an Object.prototype
property name, undefined otherwise.  The `|| 50` fallback is applied
separately by readOrDefault. -/
def basePrices (category : String) : TableRead :=
  if category = "Electronics" then .num 100
  else if category = "Clothing" then .num 25
  else if category = "Furniture" then .num 200
  else if category = "Books" then .num 10
  else if category = "Sports" then .num 50
  else if category = "Tools" then .num 75
  else if category = "Toys" then .num 20
  else if category ∈ objectPrototypeKeys then .protoMember
  else .undefined

/-- The bracket read conditionMultiplier[condition] in suggestPrice: an
own entry for the five table keys, the inherited member for an
Object.prototype property name, undefined otherwise.  The `|| 0.5`
fallback is applied separately by readOrDefault. -/
def conditionMultiplier (condition : String) : TableRead :=
  if condition = "New" then .num 1
  else if condition = "Like New" then .num (85/100)
  else if condition = "Good" then .num (65/100)
  else if condition = "Fair" then .num (45/100)
  else if condition = "Poor" then .num (25/100)
  else if condition ∈ objectPrototypeKeys then .protoMember
  else .undefined

/-- suggestPrice from pwa/src/utils/promptBuilders.ts.  The declared
return type number | null becomes Option JSNumber; the guard
`if (facts.estimatedPrice)` is JavaScript truthiness, so a present but
zero estimated price falls through to the heuristic; the heuristic
multiplies the two defaulted table reads — NaN when either read hit an
inherited Object.prototype member — and rounds. -/
def suggestPrice (facts : ProductFacts) : Option JSNumber :=
  if jsTruthy facts.estimatedPrice then
    facts.estimatedPrice.map JSNumber.num
  else
    some (jsRoundNum (jsMul
      (readOrDefault (basePrices facts.category) 50)
      (readOrDefault (conditionMultiplier facts.condition) (1/2))))

/-- The category base-price table exactly as claim C2 words it, written
independently of the source table for comparison. -/
def claimBasePrice : String → ℚ
  | "Electronics" => 100
  | "Clothing" => 25
  | "Furniture" => 200
  | "Books" => 10
  | "Sports" => 50
  | "Tools" => 75
  | "Toys" => 20
  | _ => 50

/-- The condition multiplier table exactly as claim C2 words it, written
independently of the source table for comparison. -/
def claimConditionMultiplier : String → ℚ
  | "New" => 1
  | "Like New" => 85/100
  | "Good" => 65/100
  | "Fair" => 45/100
  | "Poor" => 25/100
  | _ => 1/2

/-- The ImageData interface from pwa/src/lib/chromeBuiltInAi.ts: a base64
data string and a mime type. -/
structure ImageData where
  data : String
  mimeType : String
deriving DecidableEq

/-- The VoiceData interface: base64 audio, mime type, optional
transcript. -/
structure VoiceData where
  data : String
  mimeType : String
  transcript : Option String := none
deriving DecidableEq

/-- The ListingContent interface: title, description, keywords, optional
suggested price. -/
structure ListingContent where
  title : String
  description : String
  keywords : List String
  suggestedPrice : Option ℚ := none
deriving DecidableEq

/-- The StoredListing interface from pwa/src/lib/indexeddb.ts.  The
fields typed `any` in the source (facts, variants, videoScript) carry
opaque structured payloads; they are modelled as uninterpreted string
blobs, which is enough because no store operation inspects them. -/
structure StoredListing where
  id : String
  createdAt : ℕ
  updatedAt : ℕ
  images : List ImageData
  voiceNote : Option VoiceData := none
  content : ListingContent
  facts : Option String := none
  variants : Option (List String) := none
  videoScript : Option String := none
deriving DecidableEq

/-- The listings object store (keyPath "id"): its records, as a list
with no duplicate ids.  The list order carries no meaning; retrieval
order comes from the keys and the by-date index. -/
abbrev Store := List StoredListing

/-- db.put("listings", listing): insert, or fully replace the record
whose key equals listing.id. -/
def idbPut (listing : StoredListing) (s : Store) : Store :=
  listing :: s.filter (fun r => r.id != listing.id)

/-- saveListing from pwa/src/lib/indexeddb.ts: sets listing.updatedAt to
Date.now() — mutating the caller record in place — then puts it.  The
mutation is made explicit: the first component is the caller record
after the call, the second the store after the put.  now stands for the
Date.now() reading. -/
def saveListing (now : ℕ) (listing : StoredListing) (s : Store) :
    StoredListing × Store :=
  let listing' := { listing with updatedAt := now }
  (listing', idbPut listing' s)

/-- getListing from pwa/src/lib/indexeddb.ts: db.get returns the record
at the key, or undefined (modelled none) when the key is absent. -/
def getListing (id : String) (s : Store) : Option StoredListing :=
  s.find? (fun r => r.id == id)

/-- The traversal order of the by-date index: ascending createdAt, ties
ordered by primary key (id), which is how an IndexedDB index stores
entries with duplicate index keys. -/
def byDateRel (a b : StoredListing) : Prop :=
  a.createdAt < b.createdAt ∨ (a.createdAt = b.createdAt ∧ a.id ≤ b.id)

instance : DecidableRel byDateRel := fun a b => by
  unfold byDateRel
  infer_instance

instance : IsTotal StoredListing byDateRel where
  total a b := by
    unfold byDateRel
    rcases Nat.lt_trichotomy a.createdAt b.createdAt with h | h | h
    · exact Or.inl (Or.inl h)
    · rcases le_total a.id b.id with hid | hid
      · exact Or.inl (Or.inr ⟨h, hid⟩)
      · exact Or.inr (Or.inr ⟨h.symm, hid⟩)
    · exact Or.inr (Or.inl h)

instance : IsTrans StoredListing byDateRel where
  trans a b c hab hbc := by
    unfold byDateRel at *
    rcases hab with h1 | ⟨h1, h1id⟩
    · rcases hbc with h2 | ⟨h2, _⟩
      · exact Or.inl (h1.trans h2)
      · exact Or.inl (h2 ▸ h1)
    · rcases hbc with h2 | ⟨h2, h2id⟩
      · exact Or.inl (h1 ▸ h2)
      · exact Or.inr ⟨h1.trans h2, h1id.trans h2id⟩

/-- getAllListings from pwa/src/lib/indexeddb.ts: getAll on the by-date
index yields every record in ascending index order — modelled as sorting
the store contents by the index order — and the wrapper reverses the
result for newest first. -/
def getAllListings (s : Store) : List StoredListing :=
  (List.insertionSort byDateRel s).reverse

/-- deleteListing from pwa/src/lib/indexeddb.ts: db.delete removes the
record at the key when present and succeeds either way. -/
def deleteListing (id : String) (s : Store) : Store :=
  s.filter (fun r => r.id != id)

/-- clearAllListings from pwa/src/lib/indexeddb.ts: db.clear removes
every record. -/
def clearAllListings (_s : Store) : Store := []

/-- getDB from pwa/src/lib/indexeddb.ts, acting on the module-level
dbPromise cache (none before any call).  When the cache is null it
stores the connection openDB would construct — the still-pending promise
is assigned synchronously, before any suspension — and every call
returns the cached handle.  Handles are modelled as numeric identifiers;
fresh is the handle openDB would construct if this call constructed
one. -/
def getDB (fresh : ℕ) : Option ℕ → ℕ × Option ℕ
  | some h => (h, some h)
  | none => (fresh, some fresh)

/-- A sequence of getDB calls threading the dbPromise cache, the k-th
element of the list being the handle openDB would construct if the k-th
call constructed one.  Returns the handles handed to the callers and the
final cache. -/
def getDBTrace : Option ℕ → List ℕ → List ℕ × Option ℕ
  | s, [] => ([], s)
  | s, f :: fs =>
    let p := getDB f s
    let q := getDBTrace p.2 fs
    (p.1 :: q.1, q.2)

/-- A fixed listing content for concrete test inputs. -/
def demoContent : ListingContent :=
  { title := "t", description := "d", keywords := [] }

/-- A fixed listing for concrete test inputs. -/
def demoListing : StoredListing :=
  { id := "a", createdAt := 1, updatedAt := 1, images := [],
    content := demoContent }


theorem readOrDefault_num {q : ℚ} (hq : q ≠ 0) (d : ℚ) :
    readOrDefault (TableRead.num q) d = TableRead.num q := by
  simp only [readOrDefault]
  rw [if_neg hq]

/-- With the `|| 50` fallback applied, a base-price read at a category
that is not an inherited Object.prototype key gives exactly the table
entry, or 50 when the key is absent — the table stated by claim C2. -/
theorem basePrices_or_default (c : String) (hc : c ∉ objectPrototypeKeys) :
    readOrDefault (basePrices c) 50 = TableRead.num (claimBasePrice c) := by
  unfold basePrices claimBasePrice
  split_ifs with h1 h2 h3 h4 h5 h6 h7
  all_goals first
    | (subst_vars
       rw [readOrDefault_num (by norm_num)]
       rfl)
    | simp only [readOrDefault]

/-- With the `|| 0.5` fallback applied, a multiplier read at a condition
that is not an inherited Object.prototype key gives exactly the table
entry, or 0.5 when the key is absent — the table stated by claim C2. -/
theorem conditionMultiplier_or_default (c : String)
    (hc : c ∉ objectPrototypeKeys) :
    readOrDefault (conditionMultiplier c) (1/2) =
      TableRead.num (claimConditionMultiplier c) := by
  unfold conditionMultiplier claimConditionMultiplier
  split_ifs with h1 h2 h3 h4 h5
  all_goals first
    | (subst_vars
       rw [readOrDefault_num (by norm_num)]
       rfl)
    | simp only [readOrDefault]

/-- A ProductFacts input carrying an explicit estimated price of zero. -/
def zeroEstimateFacts : ProductFacts :=
  { category := "Books", condition := "Good", uniqueFeatures := [],
    keywords := [], estimatedPrice := some 0 }

/-- A ProductFacts input carrying an explicit estimated price of 100. -/
def estimate100Facts : ProductFacts :=
  { category := "Electronics", condition := "Good", uniqueFeatures := [],
    keywords := [], estimatedPrice := some 100 }

/-- Books in Good condition, no estimated price. -/
def booksGoodFacts : ProductFacts :=
  { category := "Books", condition := "Good", uniqueFeatures := [],
    keywords := [] }

/-- Clothing in Fair condition, no estimated price. -/
def clothingFairFacts : ProductFacts :=
  { category := "Clothing", condition := "Fair", uniqueFeatures := [],
    keywords := [] }

/-- Sports in Poor condition, no estimated price. -/
def sportsPoorFacts : ProductFacts :=
  { category := "Sports", condition := "Poor", uniqueFeatures := [],
    keywords := [] }

/-- Electronics in New condition, no estimated price. -/
def electronicsNewFacts : ProductFacts :=
  { category := "Electronics", condition := "New", uniqueFeatures := [],
    keywords := [] }

/-- Electronics in Poor condition, no estimated price. -/
def electronicsPoorFacts : ProductFacts :=
  { category := "Electronics", condition := "Poor", uniqueFeatures := [],
    keywords := [] }

/-- Category "toString" — an inherited Object.prototype key — in Good
condition, no estimated price. -/
def toStringGoodFacts : ProductFacts :=
  { category := "toString", condition := "Good", uniqueFeatures := [],
    keywords := [] }

/-- Category "toString" in New condition, no estimated price. -/
def toStringNewFacts : ProductFacts :=
  { category := "toString", condition := "New", uniqueFeatures := [],
    keywords := [] }

/-- Category "toString" in Poor condition, no estimated price. -/
def toStringPoorFacts : ProductFacts :=
  { category := "toString", condition := "Poor", uniqueFeatures := [],
    keywords := [] }

theorem suggestPrice_toStringGood_nan :
    suggestPrice toStringGoodFacts = some JSNumber.nan := by
  unfold suggestPrice toStringGoodFacts
  simp [jsTruthy, basePrices, conditionMultiplier, objectPrototypeKeys,
    readOrDefault, jsMul, jsRoundNum]

/-- Claim C1, counterexample: on an input whose estimated price is
present but equal to 0, suggestPrice does not return it — the truthiness
guard sends a zero price into the heuristic, which yields 7 here. -/
theorem suggestPrice_zero_estimate_cex :
    zeroEstimateFacts.estimatedPrice = some 0 ∧
    suggestPrice zeroEstimateFacts ≠ some (JSNumber.num 0) := by
  refine ⟨rfl, ?_⟩
  unfold suggestPrice zeroEstimateFacts
  simp [jsTruthy, basePrices, conditionMultiplier, readOrDefault,
    jsMul, jsRoundNum, jsRound]
  norm_num

/-- Claim C1 (amended): for every ProductFacts input on which a nonzero
estimated price is present, suggestPrice returns that estimated price
unchanged, regardless of the category and condition fields. -/
theorem suggestPrice_returns_nonzero_estimate (facts : ProductFacts) (q : ℚ)
    (hq : facts.estimatedPrice = some q) (hne : q ≠ 0) :
    suggestPrice facts = some (JSNumber.num q) := by
  unfold suggestPrice
  rw [hq]
  simp [jsTruthy, hne]

theorem suggestPrice_returns_nonzero_estimate_witness :
    suggestPrice estimate100Facts = some (JSNumber.num 100) :=
  suggestPrice_returns_nonzero_estimate _ 100 rfl (by norm_num)

/-- Claim C2, counterexample: at the unrecognized category "toString"
(an inherited Object.prototype key) with condition Good and no estimated
price, the program returns NaN, not the claimed
round(50 times 0.65) = 33 — the inherited member is truthy, so the
`|| 50` default never fires. -/
theorem suggestPrice_proto_category_cex :
    toStringGoodFacts.estimatedPrice = none ∧
    suggestPrice toStringGoodFacts = some JSNumber.nan ∧
    suggestPrice toStringGoodFacts ≠
      some (JSNumber.num ((jsRound (claimBasePrice toStringGoodFacts.category *
        claimConditionMultiplier toStringGoodFacts.condition) : ℤ) : ℚ)) := by
  refine ⟨rfl, suggestPrice_toStringGood_nan, ?_⟩
  rw [suggestPrice_toStringGood_nan]
  simp

/-- Claim C2 (amended): with no estimated price supplied, and category
and condition not naming inherited Object.prototype members, suggestPrice
is the rounded product of the category base price (per the table in the
claim, default 50 for an unrecognized category) and the condition
multiplier (per the table in the claim, default 0.5 for an unrecognized
condition); in particular Books in Good condition yields 7. -/
theorem suggestPrice_table_formula (facts : ProductFacts)
    (h : facts.estimatedPrice = none)
    (hcat : facts.category ∉ objectPrototypeKeys)
    (hcond : facts.condition ∉ objectPrototypeKeys) :
    suggestPrice facts =
      some (JSNumber.num ((jsRound (claimBasePrice facts.category *
        claimConditionMultiplier facts.condition) : ℤ) : ℚ)) ∧
    suggestPrice booksGoodFacts = some (JSNumber.num 7) := by
  constructor
  · unfold suggestPrice
    rw [h]
    rw [basePrices_or_default _ hcat, conditionMultiplier_or_default _ hcond]
    simp [jsTruthy, jsMul, jsRoundNum]
  · unfold suggestPrice booksGoodFacts
    simp [jsTruthy, basePrices, conditionMultiplier, readOrDefault,
      jsMul, jsRoundNum, jsRound]
    norm_num

theorem suggestPrice_table_formula_witness :
    suggestPrice clothingFairFacts =
      some (JSNumber.num ((jsRound (claimBasePrice clothingFairFacts.category *
        claimConditionMultiplier clothingFairFacts.condition) : ℤ) : ℚ)) :=
  (suggestPrice_table_formula clothingFairFacts rfl (by decide) (by decide)).1

theorem claimBasePrice_nonneg (c : String) : 0 ≤ claimBasePrice c := by
  unfold claimBasePrice
  split <;> norm_num

theorem claimConditionMultiplier_nonneg (c : String) :
    0 ≤ claimConditionMultiplier c := by
  unfold claimConditionMultiplier
  split <;> norm_num

theorem jsRound_nonneg {x : ℚ} (hx : 0 ≤ x) : 0 ≤ jsRound x := by
  unfold jsRound
  have hx2 : ((0 : ℤ) : ℚ) ≤ x + 1/2 := by push_cast; linarith
  exact Int.le_floor.mpr hx2

/-- Claim C3, counterexample: at the category "toString" (an inherited
Object.prototype key) with condition Good and no estimated price, the
program returns NaN, which is not a non-negative integer. -/
theorem suggestPrice_proto_nan_cex :
    toStringGoodFacts.estimatedPrice = none ∧
    suggestPrice toStringGoodFacts = some JSNumber.nan ∧
    ¬∃ n : ℕ, suggestPrice toStringGoodFacts = some (JSNumber.num (n : ℚ)) := by
  refine ⟨rfl, suggestPrice_toStringGood_nan, ?_⟩
  rw [suggestPrice_toStringGood_nan]
  simp

/-- Claim C3 (amended): with no estimated price supplied, and category
and condition not naming inherited Object.prototype members, suggestPrice
returns a non-negative integer. -/
theorem suggestPrice_nonneg_integer (facts : ProductFacts)
    (h : facts.estimatedPrice = none)
    (hcat : facts.category ∉ objectPrototypeKeys)
    (hcond : facts.condition ∉ objectPrototypeKeys) :
    ∃ n : ℕ, suggestPrice facts = some (JSNumber.num (n : ℚ)) := by
  have hx : 0 ≤ claimBasePrice facts.category *
      claimConditionMultiplier facts.condition :=
    mul_nonneg (claimBasePrice_nonneg _) (claimConditionMultiplier_nonneg _)
  have hz := jsRound_nonneg hx
  refine ⟨(jsRound (claimBasePrice facts.category *
    claimConditionMultiplier facts.condition)).toNat, ?_⟩
  unfold suggestPrice
  rw [h]
  rw [basePrices_or_default _ hcat, conditionMultiplier_or_default _ hcond]
  simp [jsTruthy, jsMul, jsRoundNum]
  exact_mod_cast congrArg (fun z : ℤ => ((z : ℚ))) (Int.toNat_of_nonneg hz).symm

theorem suggestPrice_nonneg_integer_witness :
    ∃ n : ℕ, suggestPrice sportsPoorFacts = some (JSNumber.num (n : ℚ)) :=
  suggestPrice_nonneg_integer sportsPoorFacts rfl (by decide) (by decide)

/-- Claim C4, counterexample: for the fixed category "toString" (an
inherited Object.prototype key), both the New and the Poor price are
NaN, and NaN is not greater than NaN, so the strict ordering fails. -/
theorem suggestPrice_proto_order_cex :
    suggestPrice toStringNewFacts = some JSNumber.nan ∧
    suggestPrice toStringPoorFacts = some JSNumber.nan ∧
    ¬∃ p q : ℚ, suggestPrice toStringNewFacts = some (JSNumber.num p) ∧
      suggestPrice toStringPoorFacts = some (JSNumber.num q) ∧ q < p := by
  have hNew : suggestPrice toStringNewFacts = some JSNumber.nan := by
    unfold suggestPrice toStringNewFacts
    simp [jsTruthy, basePrices, conditionMultiplier, objectPrototypeKeys,
      readOrDefault, jsMul, jsRoundNum]
  have hPoor : suggestPrice toStringPoorFacts = some JSNumber.nan := by
    unfold suggestPrice toStringPoorFacts
    simp [jsTruthy, basePrices, conditionMultiplier, objectPrototypeKeys,
      readOrDefault, jsMul, jsRoundNum]
  refine ⟨hNew, hPoor, ?_⟩
  rw [hNew, hPoor]
  simp

/-- Claim C4 (amended): with no estimated price supplied and the
category fixed to a string that does not name an inherited
Object.prototype member, the price for condition New is strictly greater
than the price for condition Poor. -/
theorem suggestPrice_new_gt_poor (f g : ProductFacts)
    (hf : f.estimatedPrice = none) (hg : g.estimatedPrice = none)
    (hfc : f.condition = "New") (hgc : g.condition = "Poor")
    (hcat : f.category = g.category)
    (hproto : g.category ∉ objectPrototypeKeys) :
    ∃ p q : ℚ, suggestPrice f = some (JSNumber.num p) ∧
      suggestPrice g = some (JSNumber.num q) ∧ q < p := by
  have hNewCond : ("New" : String) ∉ objectPrototypeKeys := by decide
  have hPoorCond : ("Poor" : String) ∉ objectPrototypeKeys := by decide
  have hNewMult : claimConditionMultiplier ("New") = 1 := rfl
  have hPoorMult : claimConditionMultiplier ("Poor") = 25/100 := rfl
  have hF := (suggestPrice_table_formula f hf
    (hcat ▸ hproto) (hfc ▸ hNewCond)).1
  have hG := (suggestPrice_table_formula g hg hproto (hgc ▸ hPoorCond)).1
  rw [hfc, hcat, hNewMult] at hF
  rw [hgc, hPoorMult] at hG
  refine ⟨_, _, hF, hG, ?_⟩
  have hlt : jsRound (claimBasePrice g.category * (25/100)) <
      jsRound (claimBasePrice g.category * 1) := by
    unfold claimBasePrice jsRound
    split <;> norm_num
  exact_mod_cast hlt

theorem suggestPrice_new_gt_poor_witness :
    ∃ p q : ℚ, suggestPrice electronicsNewFacts = some (JSNumber.num p) ∧
      suggestPrice electronicsPoorFacts = some (JSNumber.num q) ∧ q < p :=
  suggestPrice_new_gt_poor electronicsNewFacts electronicsPoorFacts
    rfl rfl rfl rfl rfl (by decide)

/-- Claim C10: although the declared return type of suggestPrice is
number or null, it returns a number on every input and never null — at
an inherited-prototype-key category or condition that number is NaN,
still a number. -/
theorem suggestPrice_never_null (facts : ProductFacts) :
    ∃ v : JSNumber, suggestPrice facts = some v := by
  unfold suggestPrice
  cases hq : facts.estimatedPrice with
  | none =>
    refine ⟨jsRoundNum (jsMul
      (readOrDefault (basePrices facts.category) 50)
      (readOrDefault (conditionMultiplier facts.condition) (1/2))), ?_⟩
    simp [jsTruthy]
  | some q =>
    by_cases h0 : q = 0
    · subst h0
      refine ⟨jsRoundNum (jsMul
        (readOrDefault (basePrices facts.category) 50)
        (readOrDefault (conditionMultiplier facts.condition) (1/2))), ?_⟩
      simp [jsTruthy]
    · exact ⟨JSNumber.num q, by simp [jsTruthy, h0]⟩

/-- Claim C5: saving a listing and then fetching it by id yields a
record that agrees with the input on every field except updatedAt, which
is refreshed to the save time, at least the value it had before the
save (the clock reading is assumed not to precede the stored
timestamp). -/
theorem saveListing_then_getListing (now : ℕ) (l : StoredListing) (s : Store)
    (h : l.updatedAt ≤ now) :
    ∃ r, getListing l.id (saveListing now l s).2 = some r ∧
      r.id = l.id ∧ r.createdAt = l.createdAt ∧ r.images = l.images ∧
      r.voiceNote = l.voiceNote ∧ r.content = l.content ∧
      r.facts = l.facts ∧ r.variants = l.variants ∧
      r.videoScript = l.videoScript ∧
      r.updatedAt = now ∧ l.updatedAt ≤ r.updatedAt := by
  refine ⟨{ l with updatedAt := now }, ?_, rfl, rfl, rfl, rfl, rfl, rfl,
    rfl, rfl, rfl, h⟩
  unfold saveListing idbPut getListing
  exact List.find?_cons_of_pos _ (by simp)

theorem saveListing_then_getListing_witness :
    ∃ r, getListing demoListing.id (saveListing 2 demoListing []).2 = some r ∧
      r.id = demoListing.id ∧ r.createdAt = demoListing.createdAt ∧
      r.images = demoListing.images ∧ r.voiceNote = demoListing.voiceNote ∧
      r.content = demoListing.content ∧ r.facts = demoListing.facts ∧
      r.variants = demoListing.variants ∧
      r.videoScript = demoListing.videoScript ∧
      r.updatedAt = 2 ∧ demoListing.updatedAt ≤ r.updatedAt :=
  saveListing_then_getListing 2 demoListing [] (by decide)

/-- Claim C6: deleting an id always succeeds — a no-op when no record
has that id — and a subsequent get of that id yields the explicit
not-found result. -/
theorem deleteListing_then_getListing (s : Store) (id : String) :
    getListing id (deleteListing id s) = none ∧
    (getListing id s = none → deleteListing id s = s) := by
  constructor
  · unfold getListing deleteListing
    rw [List.find?_eq_none]
    intro r hr
    have h2 := (List.mem_filter.mp hr).2
    simp only [bne_iff_ne, ne_eq] at h2
    simp [h2]
  · intro h
    unfold getListing at h
    unfold deleteListing
    rw [List.find?_eq_none] at h
    apply List.filter_eq_self.mpr
    intro r hr
    have h3 := h r hr
    simp only [beq_iff_eq] at h3
    simp [bne_iff_ne, h3]

theorem deleteListing_then_getListing_witness :
    getListing ("a") (deleteListing ("a") [demoListing]) = none :=
  (deleteListing_then_getListing [demoListing] ("a")).1

/-- A listing created at time 1000 for the concrete C7 scenario. -/
def demo1000 : StoredListing :=
  { id := "a", createdAt := 1000, updatedAt := 1000, images := [],
    content := demoContent }

/-- A listing created at time 2000 for the concrete C7 scenario. -/
def demo2000 : StoredListing :=
  { id := "b", createdAt := 2000, updatedAt := 2000, images := [],
    content := demoContent }

/-- A listing created at time 3000 for the concrete C7 scenario. -/
def demo3000 : StoredListing :=
  { id := "c", createdAt := 3000, updatedAt := 3000, images := [],
    content := demoContent }

/-- Claim C7: getAllListings returns exactly the stored records — a
permutation, so records with duplicate createdAt are kept — ordered by
createdAt descending; and after saving listings created at 1000, 2000
and 3000 it returns them newest first. -/
theorem getAllListings_newest_first (s : Store) :
    (getAllListings s).Perm s ∧
    List.Sorted (fun a b => b.createdAt ≤ a.createdAt) (getAllListings s) ∧
    getAllListings (saveListing 3000 demo3000
        (saveListing 2000 demo2000 (saveListing 1000 demo1000 []).2).2).2 =
      [demo3000, demo2000, demo1000] := by
  refine ⟨?_, ?_, ?_⟩
  · exact (List.reverse_perm _).trans (List.perm_insertionSort _ s)
  · unfold getAllListings
    rw [List.Sorted, List.pairwise_reverse]
    exact (List.sorted_insertionSort byDateRel s).imp
      (fun hab => hab.elim Nat.le_of_lt (fun h2 => Nat.le_of_eq h2.1))
  · decide

/-- Claim C8: the dbPromise cache makes getDB idempotent — starting from
an empty cache, every call in a sequence returns the handle the first
call constructed, and the cache keeps holding exactly that handle, so at
most one connection is ever constructed. -/
theorem getDB_single_handle (f : ℕ) (fs : List ℕ) :
    (getDBTrace none (f :: fs)).1 = List.replicate (fs.length + 1) f ∧
    (getDBTrace none (f :: fs)).2 = some f := by
  have cached : ∀ (gs : List ℕ) (h : ℕ),
      getDBTrace (some h) gs = (List.replicate gs.length h, some h) := by
    intro gs
    induction gs with
    | nil => intro h; rfl
    | cons g gs ih =>
      intro h
      simp [getDBTrace, getDB, ih, List.replicate_succ]
  constructor <;>
    simp [getDBTrace, getDB, cached, List.replicate_succ]

/-- Claim C9: saveListing mutates its argument — after the call the
caller record has updatedAt equal to the save time and every other
field unchanged. -/
theorem saveListing_mutates_only_updatedAt (now : ℕ) (l : StoredListing)
    (s : Store) :
    (saveListing now l s).1.updatedAt = now ∧
    (saveListing now l s).1.id = l.id ∧
    (saveListing now l s).1.createdAt = l.createdAt ∧
    (saveListing now l s).1.images = l.images ∧
    (saveListing now l s).1.voiceNote = l.voiceNote ∧
    (saveListing now l s).1.content = l.content ∧
    (saveListing now l s).1.facts = l.facts ∧
    (saveListing now l s).1.variants = l.variants ∧
    (saveListing now l s).1.videoScript = l.videoScript :=
  ⟨rfl, rfl, rfl, rfl, rfl, rfl, rfl, rfl, rfl⟩

end MarketMate
